import Mathlib

/-!
Verification of the mystery-agents generation pipeline core.

The data model and the stage operations below are a shallow embedding of the
Python sources under src/src/mystery_agents.  The generation collaborator
(the LLM call) is out of scope per the spec, so every stage operation takes
the collaborator result as an explicit argument; the dry-run branch ignores
that argument, mirroring the fact that the collaborator is never invoked
there.  Python functions that mutate the shared GameState in place are
embedded as functions returning the new state; a stage that can raise is
embedded as returning a pair of an optional error and the state the caller
observes after the call (at a raise point nothing has been mutated yet, so
that state is the input state, exactly as in the source).

The modules mystery_agents.models.state, mystery_agents.graph.workflow,
mystery_agents.agents.a4_relationships and the world validator agent are not
present under src (only their tests and callers are); their definitions are
modelled from the spec and marked as such in their doc comments.
-/

/-- Modelled from the spec: immutable identity of a game (models/state is not
under src).  Only the id field is needed by the embedded code. -/
structure MetaInfo where
  id : String := "game"
  deriving DecidableEq, Repr

/-- Player configuration (total number of players). -/
structure PlayerConfig where
  total : Nat
  deriving DecidableEq, Repr

/-- Modelled from the spec: immutable run configuration read by every stage
(models/state is not under src); fields reconstructed from their uses in the
agents under src and in the unit tests. -/
structure GameConfig where
  players : PlayerConfig
  host_gender : String
  duration_minutes : Nat
  country : String := "Spain"
  language : String := "en"
  difficulty : String := "medium"
  dry_run : Bool := false
  debug_model : Bool := false
  generate_images : Bool := false
  deriving DecidableEq, Repr

/-- World artifact (fields as read by the agents under src). -/
structure World where
  epoch : String
  location_name : String
  location_type : String
  gathering_reason : String
  visual_keywords : List String
  deriving DecidableEq, Repr

/-- Visual style artifact (fields as written by VisualStyleAgent in
a2_5_visual_style.py). -/
structure VisualStyle where
  style_description : String
  art_direction : String
  color_palette : List String
  color_grading : String
  lighting_setup : String
  lighting_mood : String
  background_aesthetic : String
  background_blur : String
  technical_specs : String
  camera_specs : String
  negative_prompts : List String
  period_references : List String
  deriving DecidableEq, Repr

/-- A playable character (fields as read by the agents under src). -/
structure Character where
  id : String
  name : String
  role : String
  motive_for_crime : String
  deriving DecidableEq, Repr

/-- A relationship between two characters (fields per the unit tests of the
relationships agent). -/
structure Relationship where
  from_character_id : String
  to_character_id : String
  type : String
  deriving DecidableEq, Repr

/-- The victim (fields as read through state_helpers.py). -/
structure Victim where
  name : String
  role_in_setting : String
  public_persona : String := ""
  secrets : List String := []
  deriving DecidableEq, Repr

/-- The murder method (fields as read through state_helpers.py). -/
structure MurderMethod where
  description : String
  weapon_used : String
  deriving DecidableEq, Repr

/-- The crime scene (fields as read through state_helpers.py). -/
structure CrimeScene where
  description : String
  room_id : String
  deriving DecidableEq, Repr

/-- The crime artifact (fields as read through state_helpers.py and the
agents under src). -/
structure Crime where
  victim : Victim
  murder_method : MurderMethod
  crime_scene : CrimeScene
  time_of_death_approx : String
  deriving DecidableEq, Repr

/-- A single timeline event (fields as written by TimelineAgent). -/
structure GlobalEvent where
  time_approx : String
  description : String
  character_ids_involved : List String
  room_id : Option String
  deriving DecidableEq, Repr

/-- A timeline block; the source field named end is renamed end_ because end
is a Lean keyword. -/
structure TimeBlock where
  start : String
  end_ : String
  events : List GlobalEvent
  deriving DecidableEq, Repr

/-- The global timeline artifact (fields as written by TimelineAgent). -/
structure GlobalTimeline where
  time_blocks : List TimeBlock
  live_action_murder_event : Option GlobalEvent
  deriving DecidableEq, Repr

/-- The killer-selection artifact (fields as written by
KillerSelectionAgent). -/
structure KillerSelection where
  killer_id : String
  rationale : String
  modified_events : List String
  truth_narrative : String
  deriving DecidableEq, Repr

/-- A single validation issue (fields per the requirements block in
v1_validator.py). -/
structure ValidationIssue where
  type : String
  description : String
  related_ids : List String
  deriving DecidableEq, Repr

/-- The full-game validation report written by ValidationAgent. -/
structure ValidationReport where
  is_consistent : Bool
  issues : List ValidationIssue
  suggested_fixes : List String
  deriving DecidableEq, Repr

/-- The world-coherence validation report (fields per the unit tests). -/
structure WorldValidation where
  is_coherent : Bool
  issues : List String
  deriving DecidableEq, Repr

/-- Modelled from the spec: the shared GameState document (models/state is
not under src).  Artifact slots, validation slots and retry counters follow
the spec data model; the defaults for the retry maxima (3 and 2) are the
model defaults recorded in the unit tests.  The host_guide, clues and
packaging artifacts are downstream of every claim and are carried as opaque
optional payloads only so that frame properties can mention them. -/
structure GameState where
  meta : MetaInfo
  config : GameConfig
  world : Option World := none
  visual_style : Option VisualStyle := none
  characters : List Character := []
  relationships : List Relationship := []
  crime : Option Crime := none
  timeline_global : Option GlobalTimeline := none
  killer_selection : Option KillerSelection := none
  host_guide : Option String := none
  clues : List String := []
  packaging : Option String := none
  world_validation : Option WorldValidation := none
  validation : Option ValidationReport := none
  world_retry_count : Nat := 0
  retry_count : Nat := 0
  max_world_retries : Nat := 2
  max_retries : Nat := 3
  deriving DecidableEq, Repr

/-- Errors a stage can raise.  The spec calls the precondition error
MissingPrerequisite; in the source it is a ValueError carrying the message
kept here. -/
inductive StageError where
  | missingPrerequisite (msg : String)
  deriving DecidableEq, Repr

namespace BaseAgent

/-- base.py _should_use_mock: dry-run mode uses the deterministic mock. -/
def _should_use_mock (s : GameState) : Bool :=
  s.config.dry_run

/-- The result dictionary returned by the underlying agent runtime, as probed
by base.py invoke: an optional structured_response entry and the list of
message contents. -/
structure AgentResult (α : Type) where
  structured_response : Option α := none
  messages : List String := []
  deriving DecidableEq, Repr

/-- The three shapes base.py invoke can return: the structured value, the
last message content, or the raw result when there are no messages. -/
inductive InvokeOut (α : Type) where
  | structured (value : α)
  | text (content : String)
  | raw (result : AgentResult α)
  deriving DecidableEq, Repr

/-- The error message raised by base.py invoke when a structured response was
required but absent. -/
def no_structured_response_msg : String :=
  "No structured_response in agent result. The LLM returned text instead of the required structured format."

/-- base.py invoke, dispatch on the runtime result: with a response_format
set, return the structured_response entry or raise; without one, return the
last message content, or the raw result when there are no messages. -/
def invoke {α : Type} (has_response_format : Bool) (result : AgentResult α) :
    Except String (InvokeOut α) :=
  if has_response_format then
    match result.structured_response with
    | some v => Except.ok (InvokeOut.structured v)
    | none => Except.error no_structured_response_msg
  else
    match result.messages.getLast? with
    | some m => Except.ok (InvokeOut.text m)
    | none => Except.ok (InvokeOut.raw result)

end BaseAgent

namespace VisualStyleAgent

/-- a2_5_visual_style.py _mock_output. -/
def _mock_output (s : GameState) : GameState :=
  { s with visual_style := some {
      style_description := "Modern photorealistic portrait photography"
      art_direction := "Sophisticated mystery game aesthetic"
      color_palette := ["neutral tones", "warm skin tones", "subtle shadows"]
      color_grading := "Natural color grading with slight warmth"
      lighting_setup := "Professional portrait lighting with soft key light"
      lighting_mood := "Elegant and slightly dramatic"
      background_aesthetic := "Subtle, blurred neutral background"
      background_blur := "Shallow depth of field, f/2.8"
      technical_specs := "8K resolution, professional portrait photography"
      camera_specs := "85mm portrait lens, f/2.8, professional DSLR"
      negative_prompts := ["text", "labels", "names", "watermarks",
        "black and white", "grayscale", "modern smartphones",
        "contemporary casual wear", "cartoon", "anime"]
      period_references := ["Contemporary professional portrait photography"] } }

/-- a2_5_visual_style.py run, with the collaborator result as argument:
dry-run returns the mock; without a world it raises; otherwise it stores the
generated visual style. -/
def run (s : GameState) (gen : VisualStyle) : Option StageError × GameState :=
  if BaseAgent._should_use_mock s then (none, _mock_output s)
  else if s.world.isNone then
    (some (StageError.missingPrerequisite
      "Cannot generate visual style without world. Run A2 first."), s)
  else (none, { s with visual_style := some gen })

end VisualStyleAgent

namespace TimelineAgent

/-- a6_timeline.py _mock_output. -/
def _mock_output (s : GameState) : GameState :=
  let time_blocks : List TimeBlock := [
    { start := "20:00", end_ := "21:00",
      events := [{ time_approx := "20:30",
                   description := "Guests arrive and mingle",
                   character_ids_involved := (s.characters.take 3).map (fun c => c.id),
                   room_id := some "main_hall" }] },
    { start := "21:00", end_ := "22:00",
      events := [{ time_approx := "21:30",
                   description := "Dinner is served",
                   character_ids_involved := s.characters.map (fun c => c.id),
                   room_id := some "dining_room" }] },
    { start := "22:00", end_ := "23:00",
      events := [{ time_approx := "22:30",
                   description := "Murder occurs",
                   character_ids_involved := [],
                   room_id := some "study" }] } ]
  { s with timeline_global := some {
      time_blocks := time_blocks,
      live_action_murder_event := some {
        time_approx := "22:30",
        description := "The lights go out and a scream is heard",
        character_ids_involved := [],
        room_id := some "study" } } }

/-- a6_timeline.py run, with the collaborator result as argument: dry-run
returns the mock, otherwise the generated timeline is stored.  The prompt
text built from the state is out of scope (it feeds the collaborator). -/
def run (s : GameState) (gen : GlobalTimeline) : Option StageError × GameState :=
  if BaseAgent._should_use_mock s then (none, _mock_output s)
  else (none, { s with timeline_global := some gen })

end TimelineAgent

namespace KillerSelectionAgent

/-- a7_killer_selection.py _mock_output: first character (or mock-killer when
there are none) becomes the killer. -/
def _mock_output (s : GameState) : GameState :=
  let killer_id := match s.characters with
    | [] => "mock-killer"
    | c :: _ => c.id
  { s with killer_selection := some {
      killer_id := killer_id,
      rationale := "This character had the strongest motive and best opportunity.",
      modified_events := ["Adjusted timeline to place killer near victim at time of death"],
      truth_narrative := "The killer poisoned the victim\x27s evening brandy during Act 1.\nThey had access to the study and the means to obtain the poison.\nThe motive was related to the recent change in the victim\x27s will.\nAll evidence points to this conclusion when properly analyzed." } }

/-- a7_killer_selection.py run, with the collaborator result as argument:
dry-run returns the mock; without a crime it raises; otherwise, when the
generated killer_id is not among the character ids, it is rewritten to the
first character id (unknown when there are no characters) before the result
is stored. -/
def run (s : GameState) (gen : KillerSelection) : Option StageError × GameState :=
  if BaseAgent._should_use_mock s then (none, _mock_output s)
  else if s.crime.isNone then
    (some (StageError.missingPrerequisite
      "Crime specification is required for killer selection"), s)
  else
    let killer_ids := s.characters.map (fun c => c.id)
    let result :=
      if killer_ids.contains gen.killer_id then gen
      else { gen with killer_id := match s.characters with
                                   | [] => "unknown"
                                   | c :: _ => c.id }
    (none, { s with killer_selection := some result })

end KillerSelectionAgent

namespace ValidationAgent

/-- v1_validator.py _mock_output: a deterministic passing report. -/
def _mock_output (s : GameState) : GameState :=
  { s with validation := some { is_consistent := true, issues := [], suggested_fixes := [] } }

/-- v1_validator.py run, with the collaborator result as argument: dry-run
returns the passing mock report, otherwise the generated report is stored. -/
def run (s : GameState) (gen : ValidationReport) : Option StageError × GameState :=
  if BaseAgent._should_use_mock s then (none, _mock_output s)
  else (none, { s with validation := some gen })

end ValidationAgent

namespace WorldValidatorAgent

/-- Modelled from the spec: the world-coherence validation agent (the module
referenced by the tests as agents.v1_world_validator is not under src).  In
dry-run mode it writes a deterministic passing report (is_coherent true,
empty issues) without invoking the collaborator; otherwise it stores the
collaborator report. -/
def run (s : GameState) (gen : WorldValidation) : Option StageError × GameState :=
  if BaseAgent._should_use_mock s then
    (none, { s with world_validation := some { is_coherent := true, issues := [] } })
  else (none, { s with world_validation := some gen })

end WorldValidatorAgent

namespace RelationshipsAgent

/-- Modelled from the spec and the unit tests: the relationships agent mock
(the module agents.a4_relationships is not under src).  With at least two
characters it writes a professional relationship between the first two and,
when a third exists, a rivalry between the second and third; with fewer than
two characters no relationship is produced. -/
def _mock_output (s : GameState) : GameState :=
  match s.characters with
  | c0 :: c1 :: c2 :: _ =>
      { s with relationships := [
          { from_character_id := c0.id, to_character_id := c1.id, type := "professional" },
          { from_character_id := c1.id, to_character_id := c2.id, type := "rivalry" } ] }
  | [c0, c1] =>
      { s with relationships := [
          { from_character_id := c0.id, to_character_id := c1.id, type := "professional" } ] }
  | _ => { s with relationships := [] }

/-- Modelled from the spec: the relationships stage run (the module
agents.a4_relationships is not under src).  With fewer than two characters it
yields an empty relationships list and does not fail; otherwise dry-run uses
the mock and a live run stores the collaborator result. -/
def run (s : GameState) (gen : List Relationship) : Option StageError × GameState :=
  if s.characters.length < 2 then (none, { s with relationships := [] })
  else if BaseAgent._should_use_mock s then (none, _mock_output s)
  else (none, { s with relationships := gen })

end RelationshipsAgent

namespace Workflow

/-- Modelled from the spec: graph/workflow.should_retry_validation (the
module graph.workflow is not under src).  Absent report routes to fail; a
consistent report routes to pass; an inconsistent report routes to retry
while the retry counter is strictly below the maximum and to fail once it is
at or above it. -/
def should_retry_validation (s : GameState) : String :=
  match s.validation with
  | none => "fail"
  | some r =>
    if r.is_consistent then "pass"
    else if s.retry_count < s.max_retries then "retry"
    else "fail"

/-- Modelled from the spec: graph/workflow.should_retry_world_validation,
the world-gate instance of the same decision table. -/
def should_retry_world_validation (s : GameState) : String :=
  match s.world_validation with
  | none => "fail"
  | some r =>
    if r.is_coherent then "pass"
    else if s.world_retry_count < s.max_world_retries then "retry"
    else "fail"

/-- Modelled from the spec: a call to should_retry_validation as the caller
observes it, returning the decision together with the state left behind by
the call.  The routing function is pure and mutates nothing, so the state
component is the input state. -/
def should_retry_validation_call (s : GameState) : String × GameState :=
  (should_retry_validation s, s)

/-- Modelled from the spec: a call to should_retry_world_validation as the
caller observes it; see should_retry_validation_call. -/
def should_retry_world_validation_call (s : GameState) : String × GameState :=
  (should_retry_world_validation s, s)

/-- Modelled from the spec: the full-game validation gate node
(graph/workflow.v1_validator_node is not under src).  It runs the validation
agent, then on a passing report resets the retry counter to 0, on a failing
report below budget increments it, and otherwise leaves the state for the
fail route. -/
def v1_validator_node (s : GameState) (gen : ValidationReport) : GameState :=
  let s1 := (ValidationAgent.run s gen).2
  match s1.validation with
  | none => s1
  | some r =>
    if r.is_consistent then { s1 with retry_count := 0 }
    else if s1.retry_count < s1.max_retries then { s1 with retry_count := s1.retry_count + 1 }
    else s1

/-- Modelled from the spec: the world-coherence validation gate node
(graph/workflow.v2_world_validator_node is not under src); the world-gate
instance of v1_validator_node. -/
def v2_world_validator_node (s : GameState) (gen : WorldValidation) : GameState :=
  let s1 := (WorldValidatorAgent.run s gen).2
  match s1.world_validation with
  | none => s1
  | some r =>
    if r.is_coherent then { s1 with world_retry_count := 0 }
    else if s1.world_retry_count < s1.max_world_retries then
      { s1 with world_retry_count := s1.world_retry_count + 1 }
    else s1

end Workflow

/-- The state of one memoization cache in utils/cache.py: the dictionary
mapping keys to constructed instances, plus a counter allocating fresh
instance identities (two calls of the underlying constructor never return
the same object, so instances are modelled as distinct natural tags). -/
structure CacheState where
  cache : List (String × Nat) := []
  nextId : Nat := 0
  deriving DecidableEq, Repr

/-- Dictionary lookup for the cache model. -/
def cacheLookup : List (String × Nat) → String → Option Nat
  | [], _ => none
  | (k, v) :: rest, key => if k = key then some v else cacheLookup rest key

/-- The common memoization pattern of LLMCache.get_model and
AgentFactory.get_agent in utils/cache.py: return the cached instance when the
key is present, otherwise construct a fresh instance, store it and return
it. -/
def memo_get (key : String) (st : CacheState) : Nat × CacheState :=
  match cacheLookup st.cache key with
  | some inst => (inst, st)
  | none => (st.nextId, { cache := (key, st.nextId) :: st.cache, nextId := st.nextId + 1 })

/-- utils/cache.py clear: empty the dictionary (already-constructed instances
keep their identities, so the allocation counter is unchanged). -/
def CacheState.clear (st : CacheState) : CacheState :=
  { st with cache := [] }

/-- Well-formedness of a cache state: cached instances are pairwise distinct
objects and were all allocated before the counter.  This holds of the empty
cache and is preserved by memo_get and clear. -/
def CacheState.WF (st : CacheState) : Prop :=
  st.cache.Pairwise (fun a b => a.2 ≠ b.2) ∧ ∀ p ∈ st.cache, p.2 < st.nextId

instance (st : CacheState) : Decidable st.WF := by
  unfold CacheState.WF; infer_instance

namespace LLMCache

/-- utils/cache.py LLMCache.get_model over the explicit cache state. -/
def get_model (tier : String) (st : CacheState) : Nat × CacheState :=
  memo_get tier st

/-- utils/cache.py LLMCache.clear. -/
def clear (st : CacheState) : CacheState :=
  CacheState.clear st

end LLMCache

namespace AgentFactory

/-- utils/cache.py AgentFactory.get_agent over the explicit cache state; the
key is the agent class name. -/
def get_agent (agent_class : String) (st : CacheState) : Nat × CacheState :=
  memo_get agent_class st

/-- utils/cache.py AgentFactory.clear. -/
def clear (st : CacheState) : CacheState :=
  CacheState.clear st

end AgentFactory

/-! Concrete sample data used by the witness theorems. -/

/-- A dry-run configuration as built in the unit-test fixtures. -/
def dryConfig : GameConfig :=
  { players := { total := 4 }, host_gender := "male", duration_minutes := 120, dry_run := true }

/-- A live (non-dry-run) configuration. -/
def liveConfig : GameConfig :=
  { players := { total := 4 }, host_gender := "male", duration_minutes := 120 }

/-- A sample character. -/
def alice : Character :=
  { id := "char-1", name := "Alice", role := "heiress", motive_for_crime := "inheritance" }

/-- A second sample character. -/
def bruno : Character :=
  { id := "char-2", name := "Bruno", role := "butler", motive_for_crime := "revenge" }

/-- A sample crime artifact. -/
def sampleCrime : Crime :=
  { victim := { name := "Victor", role_in_setting := "host" },
    murder_method := { description := "poisoning", weapon_used := "poison" },
    crime_scene := { description := "the study", room_id := "study" },
    time_of_death_approx := "22:30" }

/-- A passing validation report. -/
def passReport : ValidationReport :=
  { is_consistent := true, issues := [], suggested_fixes := [] }

/-- A failing validation report. -/
def failReport : ValidationReport :=
  { is_consistent := false, issues := [{ type := "logic", description := "gap", related_ids := [] }],
    suggested_fixes := ["fix the gap"] }

/-- A passing world validation report. -/
def passWorld : WorldValidation :=
  { is_coherent := true, issues := [] }

/-- A failing world validation report. -/
def failWorld : WorldValidation :=
  { is_coherent := false, issues := ["incoherent epoch"] }

/-! The claims. -/

/-- C1: the routing functions should_retry_validation and
should_retry_world_validation implement the four-case decision table: absent
report routes to fail; a report with the ok flag true routes to pass; with
the flag false and the counter strictly below the maximum to retry; with the
flag false and the counter at or above the maximum to fail. -/
theorem claim1_routing_decision_table (s : GameState) :
    (s.validation = none → Workflow.should_retry_validation s = "fail") ∧
    (∀ r, s.validation = some r → r.is_consistent = true →
      Workflow.should_retry_validation s = "pass") ∧
    (∀ r, s.validation = some r → r.is_consistent = false →
      s.retry_count < s.max_retries → Workflow.should_retry_validation s = "retry") ∧
    (∀ r, s.validation = some r → r.is_consistent = false →
      s.max_retries ≤ s.retry_count → Workflow.should_retry_validation s = "fail") ∧
    (s.world_validation = none → Workflow.should_retry_world_validation s = "fail") ∧
    (∀ r, s.world_validation = some r → r.is_coherent = true →
      Workflow.should_retry_world_validation s = "pass") ∧
    (∀ r, s.world_validation = some r → r.is_coherent = false →
      s.world_retry_count < s.max_world_retries →
      Workflow.should_retry_world_validation s = "retry") ∧
    (∀ r, s.world_validation = some r → r.is_coherent = false →
      s.max_world_retries ≤ s.world_retry_count →
      Workflow.should_retry_world_validation s = "fail") := by
  refine ⟨?_, ?_, ?_, ?_, ?_, ?_, ?_, ?_⟩
  · intro h; simp [Workflow.should_retry_validation, h]
  · intro r hr hc; simp [Workflow.should_retry_validation, hr, hc]
  · intro r hr hc hlt; simp [Workflow.should_retry_validation, hr, hc, hlt]
  · intro r hr hc hge; simp [Workflow.should_retry_validation, hr, hc, Nat.not_lt.mpr hge]
  · intro h; simp [Workflow.should_retry_world_validation, h]
  · intro r hr hc; simp [Workflow.should_retry_world_validation, hr, hc]
  · intro r hr hc hlt; simp [Workflow.should_retry_world_validation, hr, hc, hlt]
  · intro r hr hc hge;
    simp [Workflow.should_retry_world_validation, hr, hc, Nat.not_lt.mpr hge]

/-- C1 witness: the decision table evaluated at concrete states covering all
four rows of both routing functions. -/
theorem claim1_routing_decision_table_witness :
    Workflow.should_retry_validation { meta := {}, config := dryConfig } = "fail" ∧
    Workflow.should_retry_validation
      { meta := {}, config := dryConfig, validation := some passReport } = "pass" ∧
    Workflow.should_retry_validation
      { meta := {}, config := dryConfig, validation := some failReport,
        retry_count := 0 } = "retry" ∧
    Workflow.should_retry_validation
      { meta := {}, config := dryConfig, validation := some failReport,
        retry_count := 3 } = "fail" ∧
    Workflow.should_retry_world_validation { meta := {}, config := dryConfig } = "fail" ∧
    Workflow.should_retry_world_validation
      { meta := {}, config := dryConfig, world_validation := some passWorld } = "pass" ∧
    Workflow.should_retry_world_validation
      { meta := {}, config := dryConfig, world_validation := some failWorld,
        world_retry_count := 0 } = "retry" ∧
    Workflow.should_retry_world_validation
      { meta := {}, config := dryConfig, world_validation := some failWorld,
        world_retry_count := 2 } = "fail" :=
  ⟨(claim1_routing_decision_table _).1 rfl,
   (claim1_routing_decision_table _).2.1 passReport rfl rfl,
   (claim1_routing_decision_table _).2.2.1 failReport rfl rfl (by decide),
   (claim1_routing_decision_table _).2.2.2.1 failReport rfl rfl (by decide),
   (claim1_routing_decision_table _).2.2.2.2.1 rfl,
   (claim1_routing_decision_table _).2.2.2.2.2.1 passWorld rfl rfl,
   (claim1_routing_decision_table _).2.2.2.2.2.2.1 failWorld rfl rfl (by decide),
   (claim1_routing_decision_table _).2.2.2.2.2.2.2 failWorld rfl rfl (by decide)⟩

/-- C5: the routing functions are pure: a second call on the state left by a
first call returns the same decision and the same state, and a call leaves
the state — in particular the retry counter it reads — unchanged. -/
theorem claim5_routing_purity (s : GameState) :
    Workflow.should_retry_validation_call ((Workflow.should_retry_validation_call s).2) =
      Workflow.should_retry_validation_call s ∧
    ((Workflow.should_retry_validation_call s).2).retry_count = s.retry_count ∧
    (Workflow.should_retry_validation_call s).2 = s ∧
    Workflow.should_retry_world_validation_call
        ((Workflow.should_retry_world_validation_call s).2) =
      Workflow.should_retry_world_validation_call s ∧
    ((Workflow.should_retry_world_validation_call s).2).world_retry_count =
      s.world_retry_count ∧
    (Workflow.should_retry_world_validation_call s).2 = s :=
  ⟨rfl, rfl, rfl, rfl, rfl, rfl⟩

/-- C6: with dry_run set, a validation agent run is independent of the
generation collaborator result (no LLM call can influence it), raises no
error, and writes the deterministic passing report: is_consistent true for
the game-logic validator and is_coherent true for the world validator, both
with empty issues. -/
theorem claim6_dry_run_validator (s : GameState) (gen gen' : ValidationReport)
    (genW genW' : WorldValidation) (h : s.config.dry_run = true) :
    ValidationAgent.run s gen = ValidationAgent.run s gen' ∧
    (ValidationAgent.run s gen).1 = none ∧
    (ValidationAgent.run s gen).2.validation =
      some { is_consistent := true, issues := [], suggested_fixes := [] } ∧
    WorldValidatorAgent.run s genW = WorldValidatorAgent.run s genW' ∧
    (WorldValidatorAgent.run s genW).1 = none ∧
    (WorldValidatorAgent.run s genW).2.world_validation =
      some { is_coherent := true, issues := [] } := by
  refine ⟨?_, ?_, ?_, ?_, ?_, ?_⟩ <;>
    simp [ValidationAgent.run, ValidationAgent._mock_output, WorldValidatorAgent.run,
      BaseAgent._should_use_mock, h]

/-- C6 witness: the dry-run validator behaviour at a concrete dry-run state,
with two distinct collaborator reports. -/
theorem claim6_dry_run_validator_witness :
    ({ meta := {}, config := dryConfig } : GameState).config.dry_run = true ∧
    ValidationAgent.run { meta := {}, config := dryConfig } failReport =
      ValidationAgent.run { meta := {}, config := dryConfig } passReport ∧
    (ValidationAgent.run { meta := {}, config := dryConfig } failReport).2.validation =
      some { is_consistent := true, issues := [], suggested_fixes := [] } :=
  ⟨rfl,
   (claim6_dry_run_validator { meta := {}, config := dryConfig }
      failReport passReport failWorld passWorld rfl).1,
   (claim6_dry_run_validator { meta := {}, config := dryConfig }
      failReport passReport failWorld passWorld rfl).2.2.1⟩

/-- C7: with fewer than two characters the relationships stage raises no
error and returns a state whose relationships list is empty. -/
theorem claim7_relationships_insufficient (s : GameState) (gen : List Relationship)
    (h : s.characters.length < 2) :
    (RelationshipsAgent.run s gen).1 = none ∧
    (RelationshipsAgent.run s gen).2.relationships = [] := by
  constructor <;> simp [RelationshipsAgent.run, h]

/-- C7 witness: the relationships stage at a concrete one-character state. -/
theorem claim7_relationships_insufficient_witness :
    ({ meta := {}, config := dryConfig, characters := [alice] } :
        GameState).characters.length < 2 ∧
    (RelationshipsAgent.run { meta := {}, config := dryConfig, characters := [alice] }
        []).2.relationships = [] :=
  ⟨by decide,
   (claim7_relationships_insufficient
      { meta := {}, config := dryConfig, characters := [alice] } [] (by decide)).2⟩

/-- C2: in a live run with a crime present and at least one character, when
the generated killer_id is not among the character ids the stage stores the
generation result with its killer_id rewritten to the first character id and
returns without error. -/
theorem claim2_killer_fallback (s : GameState) (gen : KillerSelection)
    (c : Character) (rest : List Character)
    (hdry : s.config.dry_run = false)
    (hcrime : s.crime ≠ none)
    (hchars : s.characters = c :: rest)
    (hmem : gen.killer_id ∉ s.characters.map (fun ch => ch.id)) :
    (KillerSelectionAgent.run s gen).1 = none ∧
    (KillerSelectionAgent.run s gen).2.killer_selection =
      some { gen with killer_id := c.id } := by
  have hnone : s.crime.isNone = false := by
    cases hc : s.crime with
    | none => exact absurd hc hcrime
    | some _ => rfl
  have hcontains : ((c :: rest).map (fun ch => ch.id)).contains gen.killer_id = false := by
    rw [← hchars]
    simpa using hmem
  have heq : KillerSelectionAgent.run s gen =
      (none, { s with killer_selection := some { gen with killer_id := c.id } }) := by
    unfold KillerSelectionAgent.run
    simp only [BaseAgent._should_use_mock, hdry, hnone, hchars, hcontains]
    simp
  rw [heq]
  exact ⟨rfl, rfl⟩

/-- C2 witness: a live one-character state with a crime and a generated
killer_id (ghost-1) outside the roster; the stored killer_id becomes the
first character id. -/
theorem claim2_killer_fallback_witness :
    (KillerSelectionAgent.run
        { meta := {}, config := liveConfig, characters := [alice],
          crime := some sampleCrime }
        { killer_id := "ghost-1", rationale := "r", modified_events := [],
          truth_narrative := "t" }).1 = none ∧
    (KillerSelectionAgent.run
        { meta := {}, config := liveConfig, characters := [alice],
          crime := some sampleCrime }
        { killer_id := "ghost-1", rationale := "r", modified_events := [],
          truth_narrative := "t" }).2.killer_selection =
      some { killer_id := alice.id, rationale := "r", modified_events := [],
             truth_narrative := "t" } :=
  claim2_killer_fallback
    { meta := {}, config := liveConfig, characters := [alice], crime := some sampleCrime }
    { killer_id := "ghost-1", rationale := "r", modified_events := [], truth_narrative := "t" }
    alice [] rfl (by decide) rfl (by decide)

/-- C3: whenever a validation gate node returns with a passing report, the
corresponding retry counter of the returned state is 0, regardless of its
value before the gate ran. -/
theorem claim3_reset_on_pass (s : GameState) (gen : ValidationReport)
    (genW : WorldValidation) :
    (∀ r, (Workflow.v1_validator_node s gen).validation = some r →
      r.is_consistent = true → (Workflow.v1_validator_node s gen).retry_count = 0) ∧
    (∀ r, (Workflow.v2_world_validator_node s genW).world_validation = some r →
      r.is_coherent = true →
      (Workflow.v2_world_validator_node s genW).world_retry_count = 0) := by
  constructor
  · intro r hr hc
    unfold Workflow.v1_validator_node at hr ⊢
    cases hv : ((ValidationAgent.run s gen).2).validation with
    | none => simp [hv] at hr
    | some r' =>
      simp only [hv] at hr ⊢
      by_cases hc' : r'.is_consistent = true
      · simp [hc']
      · simp only [hc', Bool.false_eq_true, if_false] at hr ⊢
        have hrr : r = r' := by
          by_cases hlt : (ValidationAgent.run s gen).2.retry_count <
              (ValidationAgent.run s gen).2.max_retries <;>
            simp [hlt, hv] at hr <;> exact hr.symm
        rw [hrr] at hc
        exact absurd hc hc'
  · intro r hr hc
    unfold Workflow.v2_world_validator_node at hr ⊢
    cases hv : ((WorldValidatorAgent.run s genW).2).world_validation with
    | none => simp [hv] at hr
    | some r' =>
      simp only [hv] at hr ⊢
      by_cases hc' : r'.is_coherent = true
      · simp [hc']
      · simp only [hc', Bool.false_eq_true, if_false] at hr ⊢
        have hrr : r = r' := by
          by_cases hlt : (WorldValidatorAgent.run s genW).2.world_retry_count <
              (WorldValidatorAgent.run s genW).2.max_world_retries <;>
            simp [hlt, hv] at hr <;> exact hr.symm
        rw [hrr] at hc
        exact absurd hc hc'

/-- C3 witness: a dry-run gate pass at concrete states whose counters start
at 5 and 4 ends with both counters reset to 0. -/
theorem claim3_reset_on_pass_witness :
    (Workflow.v1_validator_node
        { meta := {}, config := dryConfig, retry_count := 5 } failReport).retry_count = 0 ∧
    (Workflow.v2_world_validator_node
        { meta := {}, config := dryConfig, world_retry_count := 4 } failWorld).world_retry_count
      = 0 :=
  ⟨(claim3_reset_on_pass { meta := {}, config := dryConfig, retry_count := 5 }
      failReport failWorld).1
      { is_consistent := true, issues := [], suggested_fixes := [] } (by decide) rfl,
   (claim3_reset_on_pass { meta := {}, config := dryConfig, world_retry_count := 4 }
      failReport failWorld).2
      { is_coherent := true, issues := [] } (by decide) rfl⟩

/-- A collaborator visual-style result with empty content, used as a dummy
argument where its value is irrelevant. -/
def blankStyle : VisualStyle :=
  { style_description := "", art_direction := "", color_palette := [],
    color_grading := "", lighting_setup := "", lighting_mood := "",
    background_aesthetic := "", background_blur := "", technical_specs := "",
    camera_specs := "", negative_prompts := [], period_references := [] }

/-- C4 counterexample: in a dry-run state with no world, the Visual Style
stage does not raise MissingPrerequisite — it succeeds and modifies the
state (the mock path runs before the precondition check), so the claim as
stated over every invocation is false. -/
theorem claim4_precondition_counterexample :
    (VisualStyleAgent.run { meta := {}, config := dryConfig } blankStyle).1 = none ∧
    (VisualStyleAgent.run { meta := {}, config := dryConfig } blankStyle).2 ≠
      { meta := {}, config := dryConfig } := by
  constructor
  · rfl
  · decide

/-- C4 (amended): in a non-dry-run state, invoking a stage whose required
upstream field is absent raises MissingPrerequisite (the source ValueError)
and leaves the GameState unmodified: Visual Style without world, and Killer
Selection without crime. -/
theorem claim4_precondition_enforcement_nondryrun (s : GameState)
    (genV : VisualStyle) (genK : KillerSelection)
    (hdry : s.config.dry_run = false) :
    (s.world = none →
      VisualStyleAgent.run s genV =
        (some (StageError.missingPrerequisite
          "Cannot generate visual style without world. Run A2 first."), s)) ∧
    (s.crime = none →
      KillerSelectionAgent.run s genK =
        (some (StageError.missingPrerequisite
          "Crime specification is required for killer selection"), s)) := by
  constructor
  · intro hw
    simp [VisualStyleAgent.run, BaseAgent._should_use_mock, hdry, hw]
  · intro hc
    simp [KillerSelectionAgent.run, BaseAgent._should_use_mock, hdry, hc]

/-- C4 witness: the amended claim at a concrete live state with neither world
nor crime populated. -/
theorem claim4_precondition_enforcement_nondryrun_witness :
    VisualStyleAgent.run { meta := {}, config := liveConfig } blankStyle =
      (some (StageError.missingPrerequisite
        "Cannot generate visual style without world. Run A2 first."),
       { meta := {}, config := liveConfig }) ∧
    KillerSelectionAgent.run { meta := {}, config := liveConfig }
        { killer_id := "k", rationale := "r", modified_events := [],
          truth_narrative := "t" } =
      (some (StageError.missingPrerequisite
        "Crime specification is required for killer selection"),
       { meta := {}, config := liveConfig }) :=
  ⟨(claim4_precondition_enforcement_nondryrun { meta := {}, config := liveConfig }
      blankStyle
      { killer_id := "k", rationale := "r", modified_events := [], truth_narrative := "t" }
      rfl).1 rfl,
   (claim4_precondition_enforcement_nondryrun { meta := {}, config := liveConfig }
      blankStyle
      { killer_id := "k", rationale := "r", modified_events := [], truth_narrative := "t" }
      rfl).2 rfl⟩

/-- C8: a stage run never touches any field other than its designated output
slot: the state it returns is the input state with at most that one slot
replaced (in particular every other artifact slot, both validation slots,
both retry counters, meta and config are unchanged).  Stated for the five
embedded stages: Visual Style, Timeline, Killer Selection, game-logic
validation and Relationships. -/
theorem claim8_frame_effects :
    (∀ (s : GameState) (gen : VisualStyle),
      ∃ v, (VisualStyleAgent.run s gen).2 = { s with visual_style := v }) ∧
    (∀ (s : GameState) (gen : GlobalTimeline),
      ∃ v, (TimelineAgent.run s gen).2 = { s with timeline_global := v }) ∧
    (∀ (s : GameState) (gen : KillerSelection),
      ∃ v, (KillerSelectionAgent.run s gen).2 = { s with killer_selection := v }) ∧
    (∀ (s : GameState) (gen : ValidationReport),
      ∃ v, (ValidationAgent.run s gen).2 = { s with validation := v }) ∧
    (∀ (s : GameState) (gen : List Relationship),
      ∃ v, (RelationshipsAgent.run s gen).2 = { s with relationships := v }) := by
  refine ⟨?_, ?_, ?_, ?_, ?_⟩
  · intro s gen
    refine ⟨(VisualStyleAgent.run s gen).2.visual_style, ?_⟩
    unfold VisualStyleAgent.run VisualStyleAgent._mock_output
    split
    · rfl
    · split <;> rfl
  · intro s gen
    refine ⟨(TimelineAgent.run s gen).2.timeline_global, ?_⟩
    unfold TimelineAgent.run TimelineAgent._mock_output
    split <;> rfl
  · intro s gen
    refine ⟨(KillerSelectionAgent.run s gen).2.killer_selection, ?_⟩
    unfold KillerSelectionAgent.run KillerSelectionAgent._mock_output
    split
    · rfl
    · split <;> rfl
  · intro s gen
    refine ⟨(ValidationAgent.run s gen).2.validation, ?_⟩
    unfold ValidationAgent.run ValidationAgent._mock_output
    split <;> rfl
  · intro s gen
    refine ⟨(RelationshipsAgent.run s gen).2.relationships, ?_⟩
    unfold RelationshipsAgent.run RelationshipsAgent._mock_output
    split
    · rfl
    · split
      · split <;> rfl
      · rfl

/-- C9: base.py invoke with a structured response_format either returns
exactly the structured_response entry of the runtime result, or, when that
entry is absent, fails with the distinguishable no-structured-response error
instead of silently returning plain text. -/
theorem claim9_invoke_structured_dispatch (α : Type) (result : BaseAgent.AgentResult α) :
    (result.structured_response = none →
      BaseAgent.invoke true result =
        Except.error BaseAgent.no_structured_response_msg) ∧
    (∀ v, result.structured_response = some v →
      BaseAgent.invoke true result =
        Except.ok (BaseAgent.InvokeOut.structured v)) := by
  constructor
  · intro h
    simp [BaseAgent.invoke, h]
  · intro v h
    simp [BaseAgent.invoke, h]

/-- C9 witness: invoke at a concrete runtime result that carries only plain
text (the error case) and at one that carries a structured value. -/
theorem claim9_invoke_structured_dispatch_witness :
    BaseAgent.invoke true ({ messages := ["text response"] } : BaseAgent.AgentResult Nat) =
      Except.error BaseAgent.no_structured_response_msg ∧
    BaseAgent.invoke true
        ({ structured_response := some 7 } : BaseAgent.AgentResult Nat) =
      Except.ok (BaseAgent.InvokeOut.structured 7) :=
  ⟨(claim9_invoke_structured_dispatch Nat { messages := ["text response"] }).1 rfl,
   (claim9_invoke_structured_dispatch Nat { structured_response := some 7 }).2 7 rfl⟩

/-- A successful cache lookup returns an entry of the dictionary. -/
theorem cacheLookup_mem : ∀ {l : List (String × Nat)} {key : String} {v : Nat},
    cacheLookup l key = some v → (key, v) ∈ l := by
  intro l
  induction l with
  | nil => intro key v h; simp [cacheLookup] at h
  | cons p rest ih =>
    intro key v h
    obtain ⟨k, w⟩ := p
    by_cases hk : k = key
    · subst hk
      simp [cacheLookup] at h
      subst h
      exact List.mem_cons_self _ _
    · simp [cacheLookup, hk] at h
      exact List.mem_cons_of_mem _ (ih h)

/-- Distinct entries of a pairwise-distinct-valued dictionary hold distinct
values. -/
theorem pairwise_snd_ne {l : List (String × Nat)}
    (hp : l.Pairwise (fun a b => a.2 ≠ b.2)) {a b : String × Nat}
    (ha : a ∈ l) (hb : b ∈ l) (hab : a ≠ b) : a.2 ≠ b.2 :=
  List.Pairwise.forall (fun _ _ h => Ne.symm h) hp ha hb hab

/-- A repeated memo_get with the same key returns the cached result and
leaves the cache untouched. -/
theorem memo_get_idem (key : String) (st : CacheState) :
    memo_get key (memo_get key st).2 = memo_get key st := by
  cases h : cacheLookup st.cache key with
  | some v =>
    have h1 : memo_get key st = (v, st) := by unfold memo_get; rw [h]
    rw [h1]
    simpa using h1
  | none =>
    have h1 : memo_get key st =
        (st.nextId, { cache := (key, st.nextId) :: st.cache, nextId := st.nextId + 1 }) := by
      unfold memo_get; rw [h]
    rw [h1]
    unfold memo_get
    simp [cacheLookup]

/-- Two consecutive memo_get calls with distinct keys return distinct
instances, provided the cache is well-formed. -/
theorem memo_get_distinct (key key' : String) (st : CacheState) (hWF : st.WF)
    (hne : key ≠ key') :
    (memo_get key' (memo_get key st).2).1 ≠ (memo_get key st).1 := by
  obtain ⟨hpw, hlt⟩ := hWF
  cases h1 : cacheLookup st.cache key with
  | some v =>
    have e1 : memo_get key st = (v, st) := by unfold memo_get; rw [h1]
    rw [e1]
    cases h2 : cacheLookup st.cache key' with
    | some w =>
      have e2 : memo_get key' st = (w, st) := by unfold memo_get; rw [h2]
      rw [e2]
      have m1 := cacheLookup_mem h1
      have m2 := cacheLookup_mem h2
      have hne2 : (key', w) ≠ (key, v) := by
        intro hq
        exact hne (congrArg Prod.fst hq).symm
      exact pairwise_snd_ne hpw m2 m1 hne2
    | none =>
      have e2 : memo_get key' st =
          (st.nextId, { cache := (key', st.nextId) :: st.cache, nextId := st.nextId + 1 }) := by
        unfold memo_get; rw [h2]
      rw [e2]
      exact Nat.ne_of_gt (hlt _ (cacheLookup_mem h1))
  | none =>
    have e1 : memo_get key st =
        (st.nextId, { cache := (key, st.nextId) :: st.cache, nextId := st.nextId + 1 }) := by
      unfold memo_get; rw [h1]
    rw [e1]
    have hred : cacheLookup ((key, st.nextId) :: st.cache) key' = cacheLookup st.cache key' := by
      simp [cacheLookup, hne]
    cases h2 : cacheLookup st.cache key' with
    | some w =>
      have e2 : memo_get key'
          ({ cache := (key, st.nextId) :: st.cache, nextId := st.nextId + 1 } : CacheState) =
          (w, { cache := (key, st.nextId) :: st.cache, nextId := st.nextId + 1 }) := by
        unfold memo_get
        rw [show cacheLookup ((key, st.nextId) :: st.cache) key' = some w from hred.trans h2]
      rw [e2]
      exact Nat.ne_of_lt (hlt _ (cacheLookup_mem h2))
    | none =>
      have e2 : memo_get key'
          ({ cache := (key, st.nextId) :: st.cache, nextId := st.nextId + 1 } : CacheState) =
          (st.nextId + 1,
           { cache := (key', st.nextId + 1) :: (key, st.nextId) :: st.cache,
             nextId := st.nextId + 2 }) := by
        unfold memo_get
        rw [show cacheLookup ((key, st.nextId) :: st.cache) key' = none from hred.trans h2]
      rw [e2]
      exact Nat.succ_ne_self st.nextId

/-- memo_get after clear always takes the construction branch, allocating the
next fresh instance. -/
theorem memo_get_clear (key : String) (st : CacheState) :
    memo_get key (CacheState.clear st) =
      (st.nextId, { cache := [(key, st.nextId)], nextId := st.nextId + 1 }) := by
  unfold memo_get CacheState.clear
  simp [cacheLookup]

/-- C10: LLMCache.get_model and AgentFactory.get_agent are memoizing and
idempotent: a second call with the same tier (respectively agent class)
returns the identical cached instance and does not change the cache; calls
with different arguments return distinct instances (on a well-formed cache);
and clear empties the cache so the next call constructs a fresh instance,
distinct from every previously cached one. -/
theorem claim10_cache_memoization :
    (∀ (st : CacheState) (tier : String),
      LLMCache.get_model tier (LLMCache.get_model tier st).2 =
        LLMCache.get_model tier st) ∧
    (∀ (st : CacheState) (t t' : String), st.WF → t ≠ t' →
      (LLMCache.get_model t' (LLMCache.get_model t st).2).1 ≠
        (LLMCache.get_model t st).1) ∧
    (∀ (st : CacheState) (tier : String),
      (LLMCache.clear st).cache = [] ∧
      (LLMCache.get_model tier (LLMCache.clear st)).1 = st.nextId ∧
      (st.WF → ∀ p ∈ st.cache,
        p.2 ≠ (LLMCache.get_model tier (LLMCache.clear st)).1)) ∧
    (∀ (st : CacheState) (cls : String),
      AgentFactory.get_agent cls (AgentFactory.get_agent cls st).2 =
        AgentFactory.get_agent cls st) ∧
    (∀ (st : CacheState) (c c' : String), st.WF → c ≠ c' →
      (AgentFactory.get_agent c' (AgentFactory.get_agent c st).2).1 ≠
        (AgentFactory.get_agent c st).1) ∧
    (∀ (st : CacheState) (cls : String),
      (AgentFactory.clear st).cache = [] ∧
      (AgentFactory.get_agent cls (AgentFactory.clear st)).1 = st.nextId ∧
      (st.WF → ∀ p ∈ st.cache,
        p.2 ≠ (AgentFactory.get_agent cls (AgentFactory.clear st)).1)) := by
  refine ⟨?_, ?_, ?_, ?_, ?_, ?_⟩
  · intro st tier
    exact memo_get_idem tier st
  · intro st t t' hWF hne
    exact memo_get_distinct t t' st hWF hne
  · intro st tier
    refine ⟨rfl, ?_, ?_⟩
    · show (memo_get tier (CacheState.clear st)).1 = st.nextId
      rw [memo_get_clear]
    · intro hWF p hp
      show p.2 ≠ (memo_get tier (CacheState.clear st)).1
      rw [memo_get_clear]
      exact Nat.ne_of_lt (hWF.2 p hp)
  · intro st cls
    exact memo_get_idem cls st
  · intro st c c' hWF hne
    exact memo_get_distinct c c' st hWF hne
  · intro st cls
    refine ⟨rfl, ?_, ?_⟩
    · show (memo_get cls (CacheState.clear st)).1 = st.nextId
      rw [memo_get_clear]
    · intro hWF p hp
      show p.2 ≠ (memo_get cls (CacheState.clear st)).1
      rw [memo_get_clear]
      exact Nat.ne_of_lt (hWF.2 p hp)

/-- C10 witness: memoization, distinctness and clear-freshness at concrete
cache states (the empty cache and a one-entry well-formed cache). -/
theorem claim10_cache_memoization_witness :
    LLMCache.get_model "tier1" (LLMCache.get_model "tier1" ⟨[], 0⟩).2 =
      LLMCache.get_model "tier1" (⟨[], 0⟩ : CacheState) ∧
    (LLMCache.get_model "tier2" (LLMCache.get_model "tier1" ⟨[], 0⟩).2).1 ≠
      (LLMCache.get_model "tier1" (⟨[], 0⟩ : CacheState)).1 ∧
    (LLMCache.get_model "tier1"
        (LLMCache.clear ⟨[("tier1", 0)], 1⟩)).1 = 1 ∧
    AgentFactory.get_agent "WorldAgent"
        (AgentFactory.get_agent "WorldAgent" ⟨[], 0⟩).2 =
      AgentFactory.get_agent "WorldAgent" (⟨[], 0⟩ : CacheState) ∧
    (AgentFactory.get_agent "CharactersAgent"
        (AgentFactory.get_agent "WorldAgent" ⟨[], 0⟩).2).1 ≠
      (AgentFactory.get_agent "WorldAgent" (⟨[], 0⟩ : CacheState)).1 ∧
    ∀ p ∈ (⟨[("WorldAgent", 0)], 1⟩ : CacheState).cache,
      p.2 ≠ (AgentFactory.get_agent "WorldAgent"
        (AgentFactory.clear ⟨[("WorldAgent", 0)], 1⟩)).1 :=
  ⟨claim10_cache_memoization.1 ⟨[], 0⟩ "tier1",
   claim10_cache_memoization.2.1 ⟨[], 0⟩ "tier1" "tier2" (by decide) (by decide),
   (claim10_cache_memoization.2.2.1 ⟨[("tier1", 0)], 1⟩ "tier1").2.1,
   claim10_cache_memoization.2.2.2.1 ⟨[], 0⟩ "WorldAgent",
   claim10_cache_memoization.2.2.2.2.1 ⟨[], 0⟩ "WorldAgent" "CharactersAgent"
     (by decide) (by decide),
   (claim10_cache_memoization.2.2.2.2.2 ⟨[("WorldAgent", 0)], 1⟩ "WorldAgent").2.2
     (by decide)⟩
